import Mathlib

/-!
Shallow embedding of src/Spotlight Music/ytmusic_helper.py.

The Python module is a CLI with two handlers (search, stream_url) built on
external services.  Calls into the external world (ytmusicapi, yt_dlp,
urllib, subprocess, the filesystem clock) are modelled as environment
records whose fields hold the outcome of each external call; exceptions
raised by an external call are modelled as an Option-none outcome at the
corresponding field.  Python dictionary lookups with .get are modelled as
Option-valued fields (none = key absent or value None); Python truthiness
on strings is modelled by pyTruthy.  Times are integer seconds (Nat); the
mtime comparison (now - mtime) / 3600 > 24 over floats is equivalent to
now - mtime > 86400, which is what the embedding uses (Nat subtraction
truncates at 0, matching the float comparison being false when the mtime
lies in the future).
-/

/-- Python truthiness of an optional string: None and the empty string are
falsy, every other string is truthy. -/
def pyTruthy : Option String → Bool
  | none => false
  | some s => s != ""

/-- The simplified song dictionary built by simplify_song (lines 105-113). -/
structure SongRecord where
  id : String
  videoId : String
  title : String
  artists : String
  album : Option String
  duration : Option String
  thumbnail : Option String
  deriving DecidableEq, Repr

/-- A JSON object printed to stdout: one of the three shapes the helper
emits. -/
inductive Output where
  | results : List SongRecord → Output
  | streamUrl : String → Output
  | error : String → Output
  deriving DecidableEq, Repr

/-- A raw ytmusicapi search result as consumed by simplify_song
(lines 90-115).  Fields are the dictionary keys the code reads; none means
the key is absent or holds None.  An artists entry some n is a dict whose
"name" key holds n (none = no "name" key); an entry that is outer-none is
a non-dict list element, skipped by the isinstance filter.  The album
field some n is a dict value whose "name" key holds n; outer none means
the album value is absent or not a dict.  A thumbnails entry some u is a
dict with "url" u; none is an entry on which the trailing
thumbnails[-1]["url"] lookup would raise (no "url" key / not a dict). -/
structure Item where
  resultType : Option String
  videoId : Option String
  title : Option String
  artists : Option (List (Option (Option String)))
  album : Option (Option String)
  duration : Option String
  length : Option String
  thumbnails : Option (List (Option String))
  deriving DecidableEq, Repr

/-- simplify_song (lines 90-115): filter to result types song/video, demand
a truthy videoId, normalize the remaining fields; the except-Exception
handler that drops an item whose thumbnail lookup raises is the
some-none arm of the getLast? match. -/
def simplify_song (item : Item) : Option SongRecord :=
  if item.resultType = some "song" ∨ item.resultType = some "video" then
    if pyTruthy item.videoId then
      match (item.thumbnails.getD []).getLast? with
      | some none => none
      | t =>
        some { id := item.videoId.getD ""
               videoId := item.videoId.getD ""
               title := item.title.getD ""
               artists := String.intercalate ", "
                 (((item.artists.getD []).filterMap id).map (fun n => n.getD ""))
               album := item.album.join
               duration := if pyTruthy item.duration then item.duration else item.length
               thumbnail := t.join }
    else none
  else none

/-- Environment for one handle_search invocation: the outcomes of the
external calls it makes.  loadOk is whether the YTMusic constructor in
load_ytmusic succeeds (false means load_ytmusic printed an error and
returned None); searchSongs is the outcome of the filtered search (none =
raised); searchAll is the outcome of the unfiltered fallback search (none
= raised); errMsg is the text of the exception caught by the handler. -/
structure SearchEnv where
  loadOk : Bool
  loadErrMsg : String
  searchSongs : Option (List Item)
  searchAll : Option (List Item)
  errMsg : String

/-- handle_search (lines 118-134).  The query only parametrizes the
external search call, whose outcome the environment already fixes. -/
def handle_search (query : String) (env : SearchEnv) : List Output :=
  if env.loadOk then
    match env.searchSongs with
    | none => [Output.error ("Search failed: " ++ env.errMsg)]
    | some rs1 =>
      match (if rs1.isEmpty then env.searchAll else some rs1) with
      | none => [Output.error ("Search failed: " ++ env.errMsg)]
      | some results => [Output.results (results.filterMap simplify_song)]
  else [Output.error ("Failed to initialize YTMusic: " ++ env.loadErrMsg)]

/-- The list of raw items the search loop actually iterates over: the
filtered results if nonempty, else the unfiltered fallback results. -/
def searchItems (env : SearchEnv) : List Item :=
  match env.searchSongs with
  | none => []
  | some rs1 =>
    match (if rs1.isEmpty then env.searchAll else some rs1) with
    | none => []
    | some results => results

/-- A yt_dlp format dictionary as read by try_extraction (lines 183-193):
the "acodec", "vcodec", "abr" and "url" keys, none = key absent. -/
structure Fmt where
  acodec : Option String
  vcodec : Option String
  abr : Option Nat
  url : Option String
  deriving DecidableEq, Repr

/-- The sort key f.get("abr", 0) used on yt_dlp formats (lines 185, 192). -/
def abrKey (f : Fmt) : Nat := f.abr.getD 0

/-- Insertion step of a stable descending sort on abrKey: f is placed
before the first element whose key does not exceed it, so that elements
with equal keys keep their original relative order, as the stable Python
list.sort(key=..., reverse=True) does. -/
def insertByAbr (f : Fmt) : List Fmt → List Fmt
  | [] => [f]
  | g :: gs => if abrKey g ≤ abrKey f then f :: g :: gs else g :: insertByAbr f gs

/-- Stable descending sort on abrKey, modelling
fmts.sort(key=lambda f: f.get("abr", 0), reverse=True). -/
def sortByAbrDesc : List Fmt → List Fmt
  | [] => []
  | f :: fs => insertByAbr f (sortByAbrDesc fs)

/-- An extraction-info dictionary as read by try_extraction
(lines 172-193): the direct "url" key and the "formats" key (formats =
none means the "formats" key is absent). -/
structure Info where
  url : Option String
  formats : Option (List Fmt)
  deriving DecidableEq, Repr

/-- The stream-URL selection applied to one extraction info (lines
174-196): direct truthy "url" field; else among formats, the head of the
audio-only candidates (acodec not "none", vcodec equal to "none") sorted
by descending abr, if its url is truthy; else the head of the candidates
with audio (acodec not "none") and a truthy url, sorted by descending
abr.  The final truthiness test before returning (line 195) is applied by
the caller loop. -/
def computeStreamUrl (info : Info) : Option String :=
  if pyTruthy info.url then info.url
  else
    match info.formats with
    | none => none
    | some fmts =>
      let audio_fmts := fmts.filter fun f => f.acodec != some "none" && f.vcodec == some "none"
      let s1 : Option String :=
        match sortByAbrDesc audio_fmts with
        | [] => none
        | g :: _ => g.url
      if pyTruthy s1 then s1
      else
        let audio_any := fmts.filter fun f => f.acodec != some "none" && pyTruthy f.url
        match sortByAbrDesc audio_any with
        | [] => none
        | g :: _ => g.url

/-- The four fixed yt_dlp format-preference strings (lines 146-151). -/
def format_strategies : List String :=
  ["bestaudio[ext=m4a]/best[height<=480]/best",
   "bestaudio/best[height<=720]/best",
   "worst[height<=480]/worst",
   "best/worst"]

/-- The per-format-strategy loop of try_extraction (lines 155-199):
extractInfo f = none models the extract_info call for format string f
raising (or returning a non-dict), which the inner except swallows before
moving to the next strategy; otherwise the computed URL is returned when
truthy (line 195), else the next strategy is tried. -/
def try_extraction_loop (extractInfo : String → Option Info) : List String → Option String
  | [] => none
  | f :: fs =>
    match extractInfo f with
    | none => try_extraction_loop extractInfo fs
    | some info =>
      let s := computeStreamUrl info
      if pyTruthy s then s else try_extraction_loop extractInfo fs

/-- try_extraction (lines 140-202): imp = false models the yt_dlp import
raising ImportError, short-circuiting to None. -/
def try_extraction (imp : Bool) (extractInfo : String → Option Info) : Option String :=
  if imp then try_extraction_loop extractInfo format_strategies else none

/-- A web player format dictionary as read by try_web_extraction
(lines 230-232) and by the final ytmusicapi fallback (lines 277-279):
the "mimeType" and "url" keys, none = key absent. -/
structure WFmt where
  mimeType : Option String
  url : Option String
  deriving DecidableEq, Repr

/-- Python str.startswith(p): the characters of p are a prefix of the
characters of s.  (Stated on the character lists because the builtin
String.startsWith does not reduce inside the kernel.) -/
def strStartsWith (s p : String) : Bool := p.data.isPrefixOf s.data

/-- The per-format test on lines 231 and 278: the mimeType value
(defaulting to the empty string) starts with audio/ and the url value is
truthy. -/
def audioFormatPred (f : WFmt) : Bool :=
  strStartsWith (f.mimeType.getD "") "audio/" && pyTruthy f.url

/-- The first-matching-audio-format loop shared by try_web_extraction
(lines 230-232) and the final fallback (lines 277-280): return the url of
the first format whose mimeType starts with audio/ and whose url is
truthy. -/
def findAudioUrl : List WFmt → Option String
  | [] => none
  | f :: fs => if audioFormatPred f then f.url else findAudioUrl fs

/-- The parsed ytInitialPlayerResponse blob as read by try_web_extraction
(lines 224-227): streamingData.formats and streamingData.adaptiveFormats,
each defaulting to the empty list. -/
structure PlayerData where
  formats : List WFmt
  adaptiveFormats : List WFmt
  deriving DecidableEq, Repr

/-- try_web_extraction (lines 204-235): webData = none models any failure
before the format loop (fetch error or timeout, regex not matching, JSON
parse error), all of which end in returning None. -/
def try_web_extraction (webData : Option PlayerData) : Option String :=
  match webData with
  | none => none
  | some pd => findAudioUrl (pd.formats ++ pd.adaptiveFormats)

/-- UPDATE_INTERVAL (line 15): 24 hours in seconds. -/
def UPDATE_INTERVAL : Nat := 24 * 60 * 60

/-- The first, shadowed definition of should_update_ytdlp (lines 18-28),
which reads a float timestamp from the content of
UPDATE_TIMESTAMP_FILE under Application Support: fileContent = none
models a missing file, some none a content that fails to parse
(ValueError); otherwise compare the age against UPDATE_INTERVAL.  The
second definition below rebinds the module-level name, so this one is
never called. -/
def should_update_ytdlp_v1 (fileContent : Option (Option Nat)) (now : Nat) : Bool :=
  match fileContent with
  | none => true
  | some none => true
  | some (some last_update) => decide (now - last_update > UPDATE_INTERVAL)

/-- The second, active definition of should_update_ytdlp (lines 37-57):
mtime is the modification time of ~/.spotlight_music_ytdlp_update (none =
file absent), statErr models any exception during the check (fail open,
line 56-57).  hours_since_update = (now - mtime) / 3600 > 24 over floats
is exactly now - mtime > 86400 over integer seconds. -/
def should_update_ytdlp (statErr : Bool) (mtime : Option Nat) (now : Nat) : Bool :=
  if statErr then true
  else
    match mtime with
    | none => true
    | some m => decide (now - m > 86400)

/-- The throttle file state: the mtime of
~/.spotlight_music_ytdlp_update, none = absent. -/
abbrev ThrottleState : Type := Option Nat

/-- The second, active definition of mark_ytdlp_updated (lines 59-68):
touch the throttle file, setting its mtime to the current time; a failure
to touch is swallowed silently, leaving the state unchanged. -/
def mark_ytdlp_updated (touchFails : Bool) (now : Nat) (st : ThrottleState) : ThrottleState :=
  if touchFails then st else some now

/-- Environment for one handle_stream_url invocation: the outcomes of its
external calls, in the order the handler can reach them.  imp/extractInfo
drive the first try_extraction call, webData the web fallback, statErr
and now the throttle check, updateOk whether the pip subprocess reports
returncode 0 (false also covers the subprocess call itself raising),
touchFails whether the touch in mark_ytdlp_updated raises, imp2 and
extractInfo2 the retry after an update, loadOk/loadErrMsg the
load_ytmusic call of the final fallback, and songFormats the
adaptiveFormats of the streamingData of get_song (none = get_song raised, or
a falsy song_info, or no streamingData key). -/
structure StreamEnv where
  imp : Bool
  extractInfo : String → Option Info
  webData : Option PlayerData
  statErr : Bool
  now : Nat
  updateOk : Bool
  touchFails : Bool
  imp2 : Bool
  extractInfo2 : String → Option Info
  loadOk : Bool
  loadErrMsg : String
  songFormats : Option (List WFmt)

/-- What one handle_stream_url invocation produced: the JSON objects
printed, the throttle file state afterwards, whether the pip update
subprocess was invoked, and how many times try_extraction was called. -/
structure StreamResult where
  outputs : List Output
  state : ThrottleState
  updateInvoked : Bool
  extractionCalls : Nat
  deriving Repr

/-- The terminal error message of handle_stream_url (line 284). -/
def terminalMsg (videoId : String) : String :=
  "Could not extract stream URL for video " ++ videoId ++ ". All methods failed."

/-- The final ytmusicapi fallback plus terminal error of handle_stream_url
(lines 270-284).  When load_ytmusic fails it prints its own error object
(line 86) before the handler reaches the terminal print. -/
def finalFallback (videoId : String) (st : ThrottleState) (env : StreamEnv)
    (inv : Bool) (calls : Nat) : StreamResult :=
  if env.loadOk then
    match env.songFormats with
    | some fs =>
      match findAudioUrl fs with
      | some u => ⟨[Output.streamUrl u], st, inv, calls⟩
      | none => ⟨[Output.error (terminalMsg videoId)], st, inv, calls⟩
    | none => ⟨[Output.error (terminalMsg videoId)], st, inv, calls⟩
  else
    ⟨[Output.error ("Failed to initialize YTMusic: " ++ env.loadErrMsg),
      Output.error (terminalMsg videoId)], st, inv, calls⟩

/-- handle_stream_url (lines 137-284): the sequential fallback chain over
try_extraction, try_web_extraction, the throttled update-and-retry, and
the ytmusicapi lookup, ending in the terminal error. -/
def handle_stream_url (videoId : String) (st : ThrottleState) (env : StreamEnv) :
    StreamResult :=
  let s1 := try_extraction env.imp env.extractInfo
  if pyTruthy s1 then ⟨[Output.streamUrl (s1.getD "")], st, false, 1⟩
  else
    let s2 := try_web_extraction env.webData
    if pyTruthy s2 then ⟨[Output.streamUrl (s2.getD "")], st, false, 1⟩
    else
      if should_update_ytdlp env.statErr st env.now then
        if env.updateOk then
          let st' := mark_ytdlp_updated env.touchFails env.now st
          let s3 := try_extraction env.imp2 env.extractInfo2
          if pyTruthy s3 then ⟨[Output.streamUrl (s3.getD "")], st', true, 2⟩
          else finalFallback videoId st' env true 2
        else finalFallback videoId st env true 1
      else finalFallback videoId st env false 1

/-- Strategy 1 of the fallback chain: library extraction. -/
def strat1 (env : StreamEnv) : Option String :=
  try_extraction env.imp env.extractInfo

/-- Strategy 2 of the fallback chain: webpage scraping. -/
def strat2 (env : StreamEnv) : Option String :=
  try_web_extraction env.webData

/-- Strategy 3 of the fallback chain: the URL produced by the throttled
update followed by the retry of library extraction; it yields nothing
when the throttle forbids the update or the update fails. -/
def strat3 (st : ThrottleState) (env : StreamEnv) : Option String :=
  if should_update_ytdlp env.statErr st env.now && env.updateOk then
    try_extraction env.imp2 env.extractInfo2
  else none

/-- Strategy 4 of the fallback chain: the ytmusicapi get_song lookup. -/
def strat4 (env : StreamEnv) : Option String :=
  if env.loadOk then env.songFormats.bind findAudioUrl else none

/-- What one whole CLI invocation produced. -/
structure RunResult where
  outputs : List Output
  state : ThrottleState
  updateInvoked : Bool
  deriving Repr

/-- The usage error message of main (line 289). -/
def usageMsg : String :=
  "Usage: ytmusic_helper.py [search <query> | stream_url <video_id>]"

/-- The main dispatcher (lines 287-299), named main in the source (Lean
reserves that name for executables): dispatch on sys.argv.  argv includes
the program name at index 0; fewer than three entries prints the usage
error. -/
def main_dispatch (argv : List String) (st : ThrottleState) (senv : SearchEnv)
    (venv : StreamEnv) : RunResult :=
  match argv with
  | _prog :: command :: arg2 :: rest =>
    if command = "search" then
      let query := (String.intercalate " " (arg2 :: rest)).trim
      ⟨handle_search query senv, st, false⟩
    else if command = "stream_url" then
      let r := handle_stream_url arg2 st venv
      ⟨r.outputs, r.state, r.updateInvoked⟩
    else ⟨[Output.error ("Unknown command: " ++ command)], st, false⟩
  | _ => ⟨[Output.error usageMsg], st, false⟩

/-- The module entry (lines 8-12 and 302-303): when the ytmusicapi import
fails, print one JSON error and exit before any work; otherwise run
main. -/
def runModule (avail : Bool) (importErrMsg : String) (argv : List String)
    (st : ThrottleState) (senv : SearchEnv) (venv : StreamEnv) : RunResult :=
  if avail then main_dispatch argv st senv venv
  else ⟨[Output.error ("ytmusicapi not available: " ++ importErrMsg)], st, false⟩

/-- The first element of maximal abrKey in a list (earlier elements win
ties), the element a stable descending sort puts first. -/
def firstMaxByAbr : List Fmt → Option Fmt
  | [] => none
  | f :: fs =>
    match firstMaxByAbr fs with
    | none => some f
    | some g => if abrKey g ≤ abrKey f then some f else some g

/-- The URL-selection policy exactly as the specification sentence words
it, to be compared with computeStreamUrl: the direct url field when
present and non-empty; otherwise the URL of the highest-audio-bitrate
format among audio-only candidates; otherwise the URL of the
highest-audio-bitrate format among any candidate with a URL. -/
def spec_select_url (info : Info) : Option String :=
  if pyTruthy info.url then info.url
  else
    match info.formats with
    | none => none
    | some fmts =>
      let audioOnly := fmts.filter fun f => f.acodec != some "none" && f.vcodec == some "none"
      let t2 := (firstMaxByAbr audioOnly).bind Fmt.url
      if pyTruthy t2 then t2
      else (firstMaxByAbr (fmts.filter fun f => pyTruthy f.url)).bind Fmt.url

/-- The selection policy with the third tier amended to what the code
does: the last resort considers only candidates whose acodec field is not
"none" (so the format carries audio) in addition to a truthy URL. -/
def spec_select_url_amended (info : Info) : Option String :=
  if pyTruthy info.url then info.url
  else
    match info.formats with
    | none => none
    | some fmts =>
      let audioOnly := fmts.filter fun f => f.acodec != some "none" && f.vcodec == some "none"
      let t2 := (firstMaxByAbr audioOnly).bind Fmt.url
      if pyTruthy t2 then t2
      else
        (firstMaxByAbr (fmts.filter fun f => f.acodec != some "none" && pyTruthy f.url)).bind
          Fmt.url

theorem insertByAbr_head (f : Fmt) (l : List Fmt) :
    (insertByAbr f l).head? = some (match l.head? with
      | none => f
      | some g => if abrKey g ≤ abrKey f then f else g) := by
  cases l with
  | nil => rfl
  | cons g gs =>
    simp only [insertByAbr, List.head?]
    by_cases h : abrKey g ≤ abrKey f <;> simp [h]

theorem sortByAbrDesc_head (l : List Fmt) :
    (sortByAbrDesc l).head? = firstMaxByAbr l := by
  induction l with
  | nil => rfl
  | cons f fs ih =>
    simp only [sortByAbrDesc, firstMaxByAbr, insertByAbr_head, ← ih]
    cases (sortByAbrDesc fs).head? with
    | none => rfl
    | some g => by_cases h : abrKey g ≤ abrKey f <;> simp [h]

theorem sortHead_bind_url (l : List Fmt) :
    (match sortByAbrDesc l with
      | [] => (none : Option String)
      | g :: _ => g.url) = (firstMaxByAbr l).bind Fmt.url := by
  have h := sortByAbrDesc_head l
  cases hs : sortByAbrDesc l with
  | nil => rw [hs] at h; simp only [List.head?] at h; rw [← h]; rfl
  | cons g gs => rw [hs] at h; simp only [List.head?] at h; rw [← h]; rfl

/-- An extraction info with no direct url and a single format that has a
URL but whose acodec field is "none": the last resort of the worded
policy would select it, the last resort of the code does not. -/
def infoC5 : Info :=
  { url := none
    formats := some [{ acodec := some "none", vcodec := some "none",
                       abr := some 100, url := some "u" }] }

/-- C5 counterexample: on infoC5 the code selects no URL while the
selection policy of the claim (last resort: any candidate with a URL) selects
"u"; the claimed equality of policies fails at this input. -/
theorem library_url_selection_counterexample :
    computeStreamUrl infoC5 = none ∧ spec_select_url infoC5 = some "u" := by
  decide

/-- C5 amended: the URL selection of try_extraction agrees everywhere
with the worded policy once its last resort is restricted to candidates
whose acodec field is not "none" and which carry a truthy URL. -/
theorem library_url_selection_amended (info : Info) :
    computeStreamUrl info = spec_select_url_amended info := by
  by_cases h : pyTruthy info.url
  · simp [computeStreamUrl, spec_select_url_amended, h]
  · cases hf : info.formats with
    | none => simp [computeStreamUrl, spec_select_url_amended, h, hf]
    | some fmts =>
      simp only [computeStreamUrl, spec_select_url_amended, h, hf, Bool.false_eq_true,
        if_false, sortHead_bind_url]

theorem initErr_head (m : String) :
    ("Failed to initialize YTMusic: " ++ m).data.head? = some 'F' := by
  obtain ⟨l⟩ := m
  rfl

theorem terminal_head (vid : String) :
    (terminalMsg vid).data.head? = some 'C' := by
  obtain ⟨l⟩ := vid
  rfl

theorem failed_init_ne_terminal (m vid : String) :
    "Failed to initialize YTMusic: " ++ m ≠ terminalMsg vid := by
  intro h
  have h2 : ("Failed to initialize YTMusic: " ++ m).data.head? =
      (terminalMsg vid).data.head? := by rw [h]
  rw [initErr_head, terminal_head] at h2
  exact absurd h2 (by decide)

theorem pyTruthy_getD {s : Option String} (h : pyTruthy s = true) : s.getD "" ≠ "" := by
  cases s with
  | none => simp [pyTruthy] at h
  | some v => simpa [pyTruthy] using h

theorem findAudioUrl_cons (f : WFmt) (fs : List WFmt) :
    findAudioUrl (f :: fs) = if audioFormatPred f then f.url else findAudioUrl fs := rfl

theorem findAudioUrl_ne_empty {l : List WFmt} {u : String}
    (h : findAudioUrl l = some u) : u ≠ "" := by
  induction l with
  | nil => simp [findAudioUrl] at h
  | cons f fs ih =>
    rw [findAudioUrl_cons] at h
    by_cases hp : audioFormatPred f
    · rw [if_pos hp] at h
      have ht : pyTruthy f.url = true := by
        unfold audioFormatPred at hp
        exact (Bool.and_eq_true _ _ |>.mp hp).2
      cases hu : f.url with
      | none => rw [hu] at ht; simp [pyTruthy] at ht
      | some v =>
        rw [hu] at h ht
        obtain rfl := Option.some_inj.mp h
        simpa [pyTruthy] using ht
    · rw [if_neg hp] at h
      exact ih h

theorem findAudioUrl_eq_find (l : List WFmt) :
    findAudioUrl l = (l.find? audioFormatPred).bind WFmt.url := by
  induction l with
  | nil => rfl
  | cons f fs ih =>
    rw [findAudioUrl_cons]
    by_cases hp : audioFormatPred f <;> simp [List.find?_cons, hp, ih]

theorem finalFallback_spec (vid : String) (st : ThrottleState) (env : StreamEnv)
    (inv : Bool) (calls : Nat) :
    (finalFallback vid st env inv calls).state = st ∧
    (finalFallback vid st env inv calls).updateInvoked = inv ∧
    (finalFallback vid st env inv calls).extractionCalls = calls ∧
    (finalFallback vid st env inv calls).outputs =
      (match strat4 env with
       | some u => [Output.streamUrl u]
       | none =>
         if env.loadOk then [Output.error (terminalMsg vid)]
         else [Output.error ("Failed to initialize YTMusic: " ++ env.loadErrMsg),
               Output.error (terminalMsg vid)]) := by
  by_cases hl : env.loadOk
  · cases hsf : env.songFormats with
    | none => simp [finalFallback, strat4, hl, hsf]
    | some fs =>
      cases hfa : findAudioUrl fs with
      | none => simp [finalFallback, strat4, hl, hsf, hfa]
      | some u => simp [finalFallback, strat4, hl, hsf, hfa]
  · simp [finalFallback, strat4, hl]

theorem handle_stream_url_eq (vid : String) (st : ThrottleState) (env : StreamEnv) :
    handle_stream_url vid st env =
      if pyTruthy (strat1 env) then
        ⟨[Output.streamUrl ((strat1 env).getD "")], st, false, 1⟩
      else if pyTruthy (strat2 env) then
        ⟨[Output.streamUrl ((strat2 env).getD "")], st, false, 1⟩
      else if should_update_ytdlp env.statErr st env.now then
        if env.updateOk then
          if pyTruthy (strat3 st env) then
            ⟨[Output.streamUrl ((strat3 st env).getD "")],
              mark_ytdlp_updated env.touchFails env.now st, true, 2⟩
          else finalFallback vid (mark_ytdlp_updated env.touchFails env.now st) env true 2
        else finalFallback vid st env true 1
      else finalFallback vid st env false 1 := by
  simp only [handle_stream_url, strat1, strat2, strat3]
  by_cases hg : should_update_ytdlp env.statErr st env.now <;>
    by_cases ho : env.updateOk <;>
    simp [hg, ho]

/-- A raw item that survives all filters of simplify_song. -/
def item0 : Item :=
  { resultType := some "song", videoId := some "v1", title := some "T",
    artists := none, album := none, duration := none, length := none,
    thumbnails := none }

/-- The record simplify_song produces from item0. -/
def rec0 : SongRecord :=
  { id := "v1", videoId := "v1", title := "T", artists := "", album := none,
    duration := none, thumbnail := none }

/-- A search environment whose two search calls both return empty lists. -/
def senv0 : SearchEnv :=
  { loadOk := true, loadErrMsg := "", searchSongs := some [], searchAll := some [],
    errMsg := "" }

/-- A search environment whose filtered search returns exactly item0. -/
def senv1 : SearchEnv := { senv0 with searchSongs := some [item0] }

/-- A stream environment in which every external call fails. -/
def envAllFail : StreamEnv :=
  { imp := false, extractInfo := fun _ => none, webData := none, statErr := false,
    now := 0, updateOk := false, touchFails := false, imp2 := false,
    extractInfo2 := fun _ => none, loadOk := true, loadErrMsg := "",
    songFormats := none }

/-- Everything fails and the final load_ytmusic call fails too. -/
def envNoLoad : StreamEnv := { envAllFail with loadOk := false, loadErrMsg := "no auth" }

/-- Everything fails, the throttle check raises 100 seconds after the
recorded timestamp 0. -/
def envC4 : StreamEnv := { envAllFail with statErr := true, now := 100 }

/-- Everything fails, 90000 seconds (just over 25 hours) after the
recorded timestamp 0, and the pip update reports failure. -/
def envC6 : StreamEnv := { envAllFail with now := 90000 }

/-- Library extraction immediately yields a direct URL. -/
def envS1 : StreamEnv :=
  { envAllFail with
    imp := true
    extractInfo := fun _ => some { url := some "http://a", formats := none } }

/-- Strategies 1 and 2 fail, the update succeeds, and the retry yields a
direct URL. -/
def envUpd : StreamEnv :=
  { envAllFail with
    now := 90000
    updateOk := true
    imp2 := true
    extractInfo2 := fun _ => some { url := some "http://b", formats := none } }

/-- A player response with a single audio format. -/
def pdAudio : PlayerData :=
  { formats := [{ mimeType := some "audio/mp4", url := some "u" }],
    adaptiveFormats := [] }

/-- A player response with no audio format. -/
def pdVideoOnly : PlayerData :=
  { formats := [{ mimeType := some "video/mp4", url := some "u" }],
    adaptiveFormats := [] }


theorem simplify_song_some {item : Item} {r : SongRecord}
    (h : simplify_song item = some r) :
    r.videoId ≠ "" ∧ (item.resultType = some "song" ∨ item.resultType = some "video") := by
  unfold simplify_song at h
  split at h
  · rename_i ht
    split at h
    · rename_i hv
      split at h
      · simp at h
      · refine ⟨?_, ht⟩
        obtain rfl := Option.some_inj.mp h.symm
        exact pyTruthy_getD hv
    · simp at h
  · simp at h

/-- C3: every record emitted by the search handler has a non-empty
videoId and stems from a raw item of result type song or video that
normalized successfully; raw items failing the filters or whose
normalization raises contribute nothing, and the batch is still
produced. -/
theorem search_results_wellformed (query : String) (env : SearchEnv)
    (rs : List SongRecord) (h : handle_search query env = [Output.results rs]) :
    rs = (searchItems env).filterMap simplify_song ∧
    ∀ r ∈ rs, r.videoId ≠ "" ∧ ∃ item ∈ searchItems env,
      simplify_song item = some r ∧
      (item.resultType = some "song" ∨ item.resultType = some "video") := by
  have hrs : rs = (searchItems env).filterMap simplify_song := by
    unfold handle_search at h
    split at h
    · split at h
      · simp at h
      · rename_i rs1 heq1
        split at h
        · simp at h
        · rename_i l heq2
          simp only [List.cons.injEq, and_true, Output.results.injEq] at h
          simp only [searchItems, heq1, heq2]
          exact h.symm
    · simp at h
  refine ⟨hrs, ?_⟩
  intro r hr
  rw [hrs, List.mem_filterMap] at hr
  obtain ⟨item, hitem, hsimp⟩ := hr
  obtain ⟨h1, h2⟩ := simplify_song_some hsimp
  exact ⟨h1, item, hitem, hsimp, h2⟩

/-- C3 witness: the theorem applied to a concrete environment whose
search yields exactly item0, normalized to rec0. -/
theorem search_results_wellformed_witness :
    [rec0] = (searchItems senv1).filterMap simplify_song ∧
    ∀ r ∈ [rec0], r.videoId ≠ "" ∧ ∃ item ∈ searchItems senv1,
      simplify_song item = some r ∧
      (item.resultType = some "song" ∨ item.resultType = some "video") :=
  search_results_wellformed "q" senv1 [rec0] (by decide)

/-- C7: once the player response is regex-extracted and parsed, web
extraction returns the url of the first format (formats followed by
adaptiveFormats) whose mimeType starts with audio/ and which carries a
truthy url; when no such format exists, or nothing was parsed, the
strategy yields no URL. -/
theorem web_extraction_first_audio (pd : PlayerData) :
    try_web_extraction (some pd) =
      ((pd.formats ++ pd.adaptiveFormats).find? audioFormatPred).bind WFmt.url ∧
    try_web_extraction none = none ∧
    ((∀ f ∈ pd.formats ++ pd.adaptiveFormats, audioFormatPred f = false) →
      try_web_extraction (some pd) = none) := by
  refine ⟨findAudioUrl_eq_find _, rfl, ?_⟩
  intro hall
  show findAudioUrl (pd.formats ++ pd.adaptiveFormats) = none
  rw [findAudioUrl_eq_find, List.find?_eq_none.mpr ?_]
  · rfl
  · intro f hf
    rw [hall f hf]
    simp

/-- C7 witness: the theorem applied to a player response carrying only a
video format, which yields no URL. -/
theorem web_extraction_first_audio_witness :
    try_web_extraction (some pdVideoOnly) = none :=
  (web_extraction_first_audio pdVideoOnly).2.2 (by decide)

/-- C9: the throttle check used by stream resolution is the second,
mtime-based definition of should_update_ytdlp: it yields true exactly
when the throttle file is absent, the check errors (fail open), or the
recorded mtime is more than 24 hours (86400 seconds) in the past; and
once strategies 1 and 2 have failed, the update subprocess is invoked
exactly when this check yields true. -/
theorem throttle_check_active (vid : String) (st : ThrottleState) (env : StreamEnv) :
    (∀ statErr mtime now, should_update_ytdlp statErr mtime now = true ↔
      (mtime = none ∨ statErr = true ∨ ∃ m, mtime = some m ∧ now - m > 86400)) ∧
    (pyTruthy (strat1 env) = false → pyTruthy (strat2 env) = false →
      (handle_stream_url vid st env).updateInvoked =
        should_update_ytdlp env.statErr st env.now) := by
  constructor
  · intro statErr mtime now
    cases statErr with
    | true => simp [should_update_ytdlp]
    | false =>
      cases mtime with
      | none => simp [should_update_ytdlp]
      | some m => simp [should_update_ytdlp]
  · intro h1 h2
    rw [handle_stream_url_eq]
    simp only [strat1] at h1
    simp only [strat2] at h2
    cases hg : should_update_ytdlp env.statErr st env.now with
    | false =>
      simp [strat1, strat2, h1, h2, hg, (finalFallback_spec vid st env false 1).2.1]
    | true =>
      cases ho : env.updateOk with
      | false =>
        simp [strat1, strat2, h1, h2, hg, ho, (finalFallback_spec vid st env true 1).2.1]
      | true =>
        cases h3 : pyTruthy (strat3 st env) with
        | false =>
          simp [strat1, strat2, h1, h2, hg, ho, h3,
            (finalFallback_spec vid (mark_ytdlp_updated env.touchFails env.now st) env
              true 2).2.1]
        | true => simp [strat1, strat2, h1, h2, hg, ho, h3]

/-- C9 witness: the second conjunct applied at a concrete failing
environment, where the update is invoked because the mtime-based check
fires. -/
theorem throttle_check_active_witness :
    (handle_stream_url "v" (some 0) envC6).updateInvoked =
      should_update_ytdlp envC6.statErr (some 0) envC6.now :=
  (throttle_check_active "v" (some 0) envC6).2 (by decide) (by decide)

theorem strat4_ne_empty {env : StreamEnv} {u : String}
    (h : strat4 env = some u) : u ≠ "" := by
  unfold strat4 at h
  split at h
  · cases hsf : env.songFormats with
    | none => rw [hsf] at h; simp at h
    | some fs =>
      rw [hsf] at h
      exact findAudioUrl_ne_empty h
  · simp at h

theorem finalFallback_s4 {env : StreamEnv} (vid : String) (st' : ThrottleState)
    (inv : Bool) (calls : Nat) {u : String} (hs4 : strat4 env = some u) :
    (finalFallback vid st' env inv calls).outputs = [Output.streamUrl u] := by
  have hout := (finalFallback_spec vid st' env inv calls).2.2.2
  rw [hs4] at hout
  simpa using hout

theorem finalFallback_terminal {env : StreamEnv} (vid : String) (st' : ThrottleState)
    (inv : Bool) (calls : Nat) (hs4 : strat4 env = none) :
    ∃ pre, (finalFallback vid st' env inv calls).outputs =
        pre ++ [Output.error (terminalMsg vid)] ∧
      Output.error (terminalMsg vid) ∉ pre ∧
      ∀ u, Output.streamUrl u ∉ (finalFallback vid st' env inv calls).outputs := by
  have hout := (finalFallback_spec vid st' env inv calls).2.2.2
  rw [hs4] at hout
  by_cases hl : env.loadOk = true
  · simp only [hl, if_true] at hout
    refine ⟨[], by rw [hout]; rfl, by simp, ?_⟩
    intro u
    rw [hout]
    simp
  · simp only [hl, if_false] at hout
    refine ⟨[Output.error ("Failed to initialize YTMusic: " ++ env.loadErrMsg)],
      by rw [hout]; rfl, ?_, ?_⟩
    · simp only [List.mem_singleton]
      intro hc
      injection hc with hc2
      exact failed_init_ne_terminal env.loadErrMsg vid hc2.symm
    · intro u
      rw [hout]
      simp

theorem finalFallback_streamUrl_ne {vid : String} {st' : ThrottleState} {env : StreamEnv}
    {inv : Bool} {calls : Nat} {u : String}
    (hu : Output.streamUrl u ∈ (finalFallback vid st' env inv calls).outputs) : u ≠ "" := by
  have hout := (finalFallback_spec vid st' env inv calls).2.2.2
  rw [hout] at hu
  cases hs4 : strat4 env with
  | some u0 =>
    rw [hs4] at hu
    simp at hu
    rw [hu]
    exact strat4_ne_empty hs4
  | none =>
    rw [hs4] at hu
    by_cases hl : env.loadOk = true <;> simp [hl] at hu

/-- C2: for every video id, the handler tries the four strategies in
order, emits a single stream_url object at the first strategy producing a
truthy URL, and when all four fail ends with exactly one terminal error
object (possibly preceded by the initialization error of the final
lookup) and no success object; every emitted stream_url is non-empty. -/
theorem stream_fallback_chain (vid : String) (st : ThrottleState) (env : StreamEnv) :
    (pyTruthy (strat1 env) = true →
      (handle_stream_url vid st env).outputs = [Output.streamUrl ((strat1 env).getD "")]) ∧
    (pyTruthy (strat1 env) = false → pyTruthy (strat2 env) = true →
      (handle_stream_url vid st env).outputs = [Output.streamUrl ((strat2 env).getD "")]) ∧
    (pyTruthy (strat1 env) = false → pyTruthy (strat2 env) = false →
      pyTruthy (strat3 st env) = true →
      (handle_stream_url vid st env).outputs = [Output.streamUrl ((strat3 st env).getD "")]) ∧
    (pyTruthy (strat1 env) = false → pyTruthy (strat2 env) = false →
      pyTruthy (strat3 st env) = false → pyTruthy (strat4 env) = true →
      (handle_stream_url vid st env).outputs = [Output.streamUrl ((strat4 env).getD "")]) ∧
    (pyTruthy (strat1 env) = false → pyTruthy (strat2 env) = false →
      pyTruthy (strat3 st env) = false → pyTruthy (strat4 env) = false →
      ∃ pre, (handle_stream_url vid st env).outputs = pre ++ [Output.error (terminalMsg vid)] ∧
        Output.error (terminalMsg vid) ∉ pre ∧
        ∀ u, Output.streamUrl u ∉ (handle_stream_url vid st env).outputs) ∧
    (∀ u, Output.streamUrl u ∈ (handle_stream_url vid st env).outputs → u ≠ "") := by
  refine ⟨?_, ?_, ?_, ?_, ?_, ?_⟩
  · intro h1
    rw [handle_stream_url_eq]
    simp [h1]
  · intro h1 h2
    rw [handle_stream_url_eq]
    simp [h1, h2]
  · intro h1 h2 h3
    have hgo : (should_update_ytdlp env.statErr st env.now && env.updateOk) = true := by
      cases hgo : (should_update_ytdlp env.statErr st env.now && env.updateOk) with
      | true => rfl
      | false => simp [strat3, hgo, pyTruthy] at h3
    obtain ⟨hg, ho⟩ := Bool.and_eq_true_iff.mp hgo
    rw [handle_stream_url_eq]
    simp [h1, h2, h3, hg, ho]
  · intro h1 h2 h3 h4
    cases hs4 : strat4 env with
    | none => rw [hs4] at h4; simp [pyTruthy] at h4
    | some u =>
      rw [handle_stream_url_eq]
      cases hg : should_update_ytdlp env.statErr st env.now with
      | false => simp [h1, h2, hg, finalFallback_s4 vid st false 1 hs4, hs4]
      | true =>
        cases ho : env.updateOk with
        | false => simp [h1, h2, hg, ho, finalFallback_s4 vid st true 1 hs4, hs4]
        | true =>
          simp [h1, h2, h3, hg, ho, hs4,
            finalFallback_s4 vid (mark_ytdlp_updated env.touchFails env.now st) true 2 hs4]
  · intro h1 h2 h3 h4
    have hs4 : strat4 env = none := by
      cases hs4 : strat4 env with
      | none => rfl
      | some u => rw [hs4] at h4; simp [pyTruthy, strat4_ne_empty hs4] at h4
    rw [handle_stream_url_eq]
    cases hg : should_update_ytdlp env.statErr st env.now with
    | false =>
      simp only [h1, h2, h3, hg, Bool.false_eq_true, if_false]
      exact finalFallback_terminal vid st false 1 hs4
    | true =>
      cases ho : env.updateOk with
      | false =>
        simp only [h1, h2, h3, hg, ho, Bool.false_eq_true, if_false, if_true]
        exact finalFallback_terminal vid st true 1 hs4
      | true =>
        simp only [h1, h2, h3, hg, ho, Bool.false_eq_true, if_false, if_true]
        exact finalFallback_terminal vid (mark_ytdlp_updated env.touchFails env.now st) true 2 hs4
  · intro u hu
    rw [handle_stream_url_eq] at hu
    cases hb1 : pyTruthy (strat1 env) with
    | true =>
      simp [hb1] at hu
      rw [hu]
      exact pyTruthy_getD hb1
    | false =>
      cases hb2 : pyTruthy (strat2 env) with
      | true =>
        simp [hb1, hb2] at hu
        rw [hu]
        exact pyTruthy_getD hb2
      | false =>
        cases hg : should_update_ytdlp env.statErr st env.now with
        | false =>
          simp only [hb1, hb2, hg, Bool.false_eq_true, if_false] at hu
          exact finalFallback_streamUrl_ne hu
        | true =>
          cases ho : env.updateOk with
          | false =>
            simp only [hb1, hb2, hg, ho, Bool.false_eq_true, if_false, eq_self_iff_true,
              if_true] at hu
            exact finalFallback_streamUrl_ne hu
          | true =>
            cases hb3 : pyTruthy (strat3 st env) with
            | true =>
              simp [hb1, hb2, hg, ho, hb3] at hu
              rw [hu]
              exact pyTruthy_getD hb3
            | false =>
              simp only [hb1, hb2, hg, ho, hb3, Bool.false_eq_true, if_false,
                eq_self_iff_true, if_true] at hu
              exact finalFallback_streamUrl_ne hu

/-- C2 witness: the chain applied to an environment whose first strategy
immediately yields a URL. -/
theorem stream_fallback_chain_witness :
    (handle_stream_url "v" none envS1).outputs = [Output.streamUrl "http://a"] := by
  have h := (stream_fallback_chain "v" none envS1).1 (by decide)
  have e : (strat1 envS1).getD "" = "http://a" := by decide
  rw [e] at h
  exact h

theorem handle_search_shape (q : String) (env : SearchEnv) :
    ∃ o, handle_search q env = [o] ∧
      ((∃ rs, o = Output.results rs) ∨ ∃ e, o = Output.error e) := by
  unfold handle_search
  split
  · split
    · exact ⟨_, rfl, Or.inr ⟨_, rfl⟩⟩
    · split
      · exact ⟨_, rfl, Or.inr ⟨_, rfl⟩⟩
      · exact ⟨_, rfl, Or.inl ⟨_, rfl⟩⟩
  · exact ⟨_, rfl, Or.inr ⟨_, rfl⟩⟩

theorem finalFallback_outputs_shape (vid : String) (st' : ThrottleState) (env : StreamEnv)
    (inv : Bool) (calls : Nat) :
    (finalFallback vid st' env inv calls).outputs.length = 1 ∨
    ((finalFallback vid st' env inv calls).outputs.length = 2 ∧ env.loadOk = false ∧
      ∃ e1 e2, (finalFallback vid st' env inv calls).outputs =
        [Output.error e1, Output.error e2]) := by
  have hout := (finalFallback_spec vid st' env inv calls).2.2.2
  cases hs4 : strat4 env with
  | some u =>
    left
    rw [finalFallback_s4 vid st' inv calls hs4]
    rfl
  | none =>
    rw [hs4] at hout
    by_cases hl : env.loadOk = true
    · left
      simp only [hl, if_true] at hout
      rw [hout]
      rfl
    · right
      simp only [hl, if_false] at hout
      refine ⟨by rw [hout]; rfl, by revert hl; cases env.loadOk <;> simp, _, _, hout⟩

theorem handle_stream_outputs_shape (vid : String) (st : ThrottleState) (env : StreamEnv) :
    (handle_stream_url vid st env).outputs.length = 1 ∨
    ((handle_stream_url vid st env).outputs.length = 2 ∧ env.loadOk = false ∧
      ∃ e1 e2, (handle_stream_url vid st env).outputs =
        [Output.error e1, Output.error e2]) := by
  rw [handle_stream_url_eq]
  cases hb1 : pyTruthy (strat1 env) with
  | true => left; simp [hb1]
  | false =>
    cases hb2 : pyTruthy (strat2 env) with
    | true => left; simp [hb1, hb2]
    | false =>
      cases hg : should_update_ytdlp env.statErr st env.now with
      | false =>
        simp only [hb1, hb2, hg, Bool.false_eq_true, if_false]
        exact finalFallback_outputs_shape vid st env false 1
      | true =>
        cases ho : env.updateOk with
        | false =>
          simp only [hb1, hb2, hg, ho, Bool.false_eq_true, if_false, eq_self_iff_true, if_true]
          exact finalFallback_outputs_shape vid st env true 1
        | true =>
          cases hb3 : pyTruthy (strat3 st env) with
          | true => left; simp [hb1, hb2, hg, ho, hb3]
          | false =>
            simp only [hb1, hb2, hb3, hg, ho, Bool.false_eq_true, if_false,
              eq_self_iff_true, if_true]
            exact finalFallback_outputs_shape vid
              (mark_ytdlp_updated env.touchFails env.now st) env true 2

/-- C1 counterexample: a stream_url invocation in which every strategy
fails and the service initialization of the final lookup also fails prints two
JSON objects (the initialization error and the terminal error), not
exactly one. -/
theorem cli_single_output_counterexample :
    (main_dispatch ["helper", "stream_url", "v"] (some 0) senv0 envNoLoad).outputs.length
      = 2 := by
  decide

/-- C1 amended: every invocation prints at least one and at most two JSON
objects of the three shapes; two happen only when the initialization of
the final lookup fails, and then both are error objects; a search
invocation always prints exactly one object, either a results array or an
error string, never both. -/
theorem cli_output_discipline (avail : Bool) (imsg : String) (argv : List String)
    (st : ThrottleState) (senv : SearchEnv) (venv : StreamEnv) :
    1 ≤ (runModule avail imsg argv st senv venv).outputs.length ∧
    (runModule avail imsg argv st senv venv).outputs.length ≤ 2 ∧
    ((runModule avail imsg argv st senv venv).outputs.length = 2 →
      venv.loadOk = false ∧
      ∃ e1 e2, (runModule avail imsg argv st senv venv).outputs =
        [Output.error e1, Output.error e2]) ∧
    (∀ prog q rest, avail = true → argv = prog :: "search" :: q :: rest →
      ∃ o, (runModule avail imsg argv st senv venv).outputs = [o] ∧
        ((∃ rs, o = Output.results rs) ∨ ∃ e, o = Output.error e)) := by
  unfold runModule
  by_cases ha : avail = true
  · simp only [ha, if_true]
    cases argv with
    | nil =>
      refine ⟨by simp [main_dispatch], by simp [main_dispatch], by simp [main_dispatch], ?_⟩
      intro prog q rest _ he
      simp at he
    | cons prog tail =>
      cases tail with
      | nil =>
        refine ⟨by simp [main_dispatch], by simp [main_dispatch], by simp [main_dispatch], ?_⟩
        intro prog2 q rest _ he
        simp at he
      | cons command tail2 =>
        cases tail2 with
        | nil =>
          refine ⟨by simp [main_dispatch], by simp [main_dispatch],
            by simp [main_dispatch], ?_⟩
          intro prog2 q rest _ he
          simp at he
        | cons arg2 rest2 =>
          by_cases hcmd : command = "search"
          · subst hcmd
            obtain ⟨o, ho, hshape⟩ := handle_search_shape
              ((String.intercalate " " (arg2 :: rest2)).trim) senv
            have houts : (main_dispatch (prog :: "search" :: arg2 :: rest2) st senv venv).outputs
                = [o] := by
              simp [main_dispatch, ho]
            refine ⟨by rw [houts]; simp, by rw [houts]; simp, ?_, ?_⟩
            · rw [houts]
              intro hc
              exact absurd hc (by simp)
            · intro prog2 q rest _ _
              exact ⟨o, houts, hshape⟩
          · by_cases hcmd2 : command = "stream_url"
            · subst hcmd2
              have houts : (main_dispatch (prog :: "stream_url" :: arg2 :: rest2)
                    st senv venv).outputs = (handle_stream_url arg2 st venv).outputs := by
                simp [main_dispatch]
              rcases handle_stream_outputs_shape arg2 st venv with hone | ⟨htwo, hlo, e1, e2, he⟩
              · refine ⟨?_, ?_, ?_, ?_⟩
                · rw [houts, hone]
                · rw [houts, hone]
                  omega
                · rw [houts, hone]
                  intro hc
                  exact absurd hc (by omega)
                · intro prog2 q rest _ he2
                  simp at he2
              · refine ⟨?_, ?_, ?_, ?_⟩
                · rw [houts, htwo]
                  omega
                · rw [houts, htwo]
                · intro _
                  exact ⟨hlo, e1, e2, by rw [houts, he]⟩
                · intro prog2 q rest _ he2
                  simp at he2
            · have houts : (main_dispatch (prog :: command :: arg2 :: rest2)
                    st senv venv).outputs = [Output.error ("Unknown command: " ++ command)] := by
                simp [main_dispatch, hcmd, hcmd2]
              refine ⟨by simp [houts], by simp [houts], by simp [houts], ?_⟩
              intro prog2 q rest _ he2
              simp at he2
              exact absurd he2.2.1 hcmd
  · simp only [ha, if_false]
    refine ⟨by simp, by simp, by simp, ?_⟩
    intro prog q rest hav _
    simp at hav

/-- C1 amended witness: a concrete search invocation printing exactly one
object of the allowed shapes. -/
theorem cli_output_discipline_witness :
    ∃ o, (runModule true "" ["helper", "search", "q"] none senv0 envAllFail).outputs = [o] ∧
      ((∃ rs, o = Output.results rs) ∨ ∃ e, o = Output.error e) :=
  (cli_output_discipline true "" ["helper", "search", "q"] none senv0 envAllFail).2.2.2
    "helper" "q" [] rfl rfl

theorem handle_updateInvoked_eq (vid : String) (st : ThrottleState) (env : StreamEnv)
    (h1 : pyTruthy (strat1 env) = false) (h2 : pyTruthy (strat2 env) = false) :
    (handle_stream_url vid st env).updateInvoked =
      should_update_ytdlp env.statErr st env.now := by
  rw [handle_stream_url_eq]
  cases hg : should_update_ytdlp env.statErr st env.now with
  | false =>
    simp only [h1, h2, hg, Bool.false_eq_true, if_false]
    exact (finalFallback_spec vid st env false 1).2.1
  | true =>
    cases ho : env.updateOk with
    | false =>
      simp only [h1, h2, hg, ho, Bool.false_eq_true, if_false, eq_self_iff_true, if_true]
      exact (finalFallback_spec vid st env true 1).2.1
    | true =>
      cases hb3 : pyTruthy (strat3 st env) with
      | true => simp [h1, h2, hg, ho, hb3]
      | false =>
        simp only [h1, h2, hb3, hg, ho, Bool.false_eq_true, if_false, eq_self_iff_true,
          if_true]
        exact (finalFallback_spec vid (mark_ytdlp_updated env.touchFails env.now st) env
          true 2).2.1

theorem handle_updateInvoked_true {vid : String} {st : ThrottleState} {env : StreamEnv}
    (h : (handle_stream_url vid st env).updateInvoked = true) :
    pyTruthy (strat1 env) = false ∧ pyTruthy (strat2 env) = false ∧
    should_update_ytdlp env.statErr st env.now = true := by
  rw [handle_stream_url_eq] at h
  cases hb1 : pyTruthy (strat1 env) with
  | true => simp [hb1] at h
  | false =>
    cases hb2 : pyTruthy (strat2 env) with
    | true => simp [hb1, hb2] at h
    | false =>
      refine ⟨rfl, rfl, ?_⟩
      cases hg : should_update_ytdlp env.statErr st env.now with
      | true => rfl
      | false =>
        simp only [hb1, hb2, hg, Bool.false_eq_true, if_false] at h
        rw [(finalFallback_spec vid st env false 1).2.1] at h
        exact h

theorem handle_state_noUpdateOk {vid : String} {st : ThrottleState} {env : StreamEnv}
    (ho : env.updateOk = false) :
    (handle_stream_url vid st env).state = st := by
  rw [handle_stream_url_eq]
  cases hb1 : pyTruthy (strat1 env) with
  | true => simp [hb1]
  | false =>
    cases hb2 : pyTruthy (strat2 env) with
    | true => simp [hb1, hb2]
    | false =>
      cases hg : should_update_ytdlp env.statErr st env.now with
      | false =>
        simp only [hb1, hb2, hg, Bool.false_eq_true, if_false]
        exact (finalFallback_spec vid st env false 1).1
      | true =>
        simp only [hb1, hb2, hg, ho, Bool.false_eq_true, if_false, eq_self_iff_true, if_true]
        exact (finalFallback_spec vid st env true 1).1

theorem handle_state_noInvoke {vid : String} {st : ThrottleState} {env : StreamEnv}
    (h : (handle_stream_url vid st env).updateInvoked = false) :
    (handle_stream_url vid st env).state = st := by
  rw [handle_stream_url_eq] at h ⊢
  cases hb1 : pyTruthy (strat1 env) with
  | true => simp [hb1]
  | false =>
    cases hb2 : pyTruthy (strat2 env) with
    | true => simp [hb1, hb2]
    | false =>
      cases hg : should_update_ytdlp env.statErr st env.now with
      | false =>
        simp only [hb1, hb2, hg, Bool.false_eq_true, if_false]
        exact (finalFallback_spec vid st env false 1).1
      | true =>
        exfalso
        cases ho : env.updateOk with
        | false =>
          simp only [hb1, hb2, hg, ho, Bool.false_eq_true, if_false, eq_self_iff_true,
            if_true] at h
          rw [(finalFallback_spec vid st env true 1).2.1] at h
          exact absurd h (by simp)
        | true =>
          cases hb3 : pyTruthy (strat3 st env) with
          | true => simp [hb1, hb2, hg, ho, hb3] at h
          | false =>
            simp only [hb1, hb2, hb3, hg, ho, Bool.false_eq_true, if_false, eq_self_iff_true,
              if_true] at h
            rw [(finalFallback_spec vid (mark_ytdlp_updated env.touchFails env.now st) env
              true 2).2.1] at h
            exact absurd h (by simp)

theorem handle_state_success {vid : String} {st : ThrottleState} {env : StreamEnv}
    (hinv : (handle_stream_url vid st env).updateInvoked = true)
    (ho : env.updateOk = true) (ht : env.touchFails = false) :
    (handle_stream_url vid st env).state = some env.now := by
  obtain ⟨h1, h2, hg⟩ := handle_updateInvoked_true hinv
  rw [handle_stream_url_eq]
  simp only [h1, h2, hg, ho, Bool.false_eq_true, if_false, eq_self_iff_true, if_true]
  cases hb3 : pyTruthy (strat3 st env) with
  | true => simp [mark_ytdlp_updated, ht]
  | false =>
    simp only [hb3, Bool.false_eq_true, if_false]
    rw [(finalFallback_spec vid (mark_ytdlp_updated env.touchFails env.now st) env true 2).1]
    simp [mark_ytdlp_updated, ht]

/-- C4 counterexample: with a timestamp recorded at time 0 and an
erroring mtime check only 100 seconds later, the fail-open throttle
triggers the update subprocess well within 24 hours of the recorded
timestamp. -/
theorem throttle_window_counterexample :
    (handle_stream_url "v" (some 0) envC4).updateInvoked = true ∧
    envC4.now - 0 ≤ 86400 := by
  decide

/-- C4 amended: when the mtime check completes without error, a recorded
timestamp suppresses the update subprocess for 24 hours, and after an
invocation whose update succeeded and whose timestamp touch succeeded, a
further error-free invocation within 24 hours does not trigger the
subprocess again; an erroring check fails open, and a failed update is
not throttled. -/
theorem throttle_window_amended :
    (∀ vid st env m, st = some m → env.statErr = false → env.now - m ≤ 86400 →
      (handle_stream_url vid st env).updateInvoked = false) ∧
    (∀ vid vid2 st env env2,
      env.updateOk = true → env.touchFails = false →
      (handle_stream_url vid st env).updateInvoked = true →
      env2.statErr = false → env2.now - env.now ≤ 86400 →
      (handle_stream_url vid2 (handle_stream_url vid st env).state env2).updateInvoked
        = false) := by
  constructor
  · intro vid st env m hst he hle
    cases hinv : (handle_stream_url vid st env).updateInvoked with
    | false => rfl
    | true =>
      obtain ⟨_, _, hg⟩ := handle_updateInvoked_true hinv
      rw [hst, he] at hg
      simp [should_update_ytdlp] at hg
      omega
  · intro vid vid2 st env env2 ho ht hinv he2 hle
    have hst : (handle_stream_url vid st env).state = some env.now :=
      handle_state_success hinv ho ht
    rw [hst]
    cases hinv2 : (handle_stream_url vid2 (some env.now) env2).updateInvoked with
    | false => rfl
    | true =>
      obtain ⟨_, _, hg⟩ := handle_updateInvoked_true hinv2
      rw [he2] at hg
      simp [should_update_ytdlp] at hg
      omega

/-- C4 amended witness: the first part applied to a recorded timestamp 0
checked without error at time 0; no update is triggered. -/
theorem throttle_window_amended_witness :
    (handle_stream_url "v" (some 0) envAllFail).updateInvoked = false :=
  throttle_window_amended.1 "v" (some 0) envAllFail 0 rfl rfl (by decide)

/-- C6 counterexample: strategies 1 and 2 fail, the throttle file records
timestamp 0 and more than 24 hours have passed without a check error, so
the hypotheses of the claim hold, and the update subprocess is triggered; but
because the update reports failure, no new timestamp is persisted (state
is still some 0, not some 90000) and extraction is not retried (a single
try_extraction call instead of the claimed two). -/
theorem update_retry_counterexample :
    pyTruthy (strat1 envC6) = false ∧ pyTruthy (strat2 envC6) = false ∧
    envC6.statErr = false ∧ 86400 < envC6.now - 0 ∧
    (handle_stream_url "v" (some 0) envC6).updateInvoked = true ∧
    (handle_stream_url "v" (some 0) envC6).extractionCalls = 1 ∧
    (handle_stream_url "v" (some 0) envC6).state = some 0 := by
  decide

/-- C6 amended: when strategies 1 and 2 have failed and the error-free
check finds the recorded timestamp more than 24 hours old, the update
subprocess is triggered; if it reports success the handler persists a new
timestamp (unless the touch itself silently fails) and retries library
extraction exactly once, and if it reports failure the handler proceeds
directly to the final strategy without persisting or retrying. -/
theorem update_retry_amended (vid : String) (st : ThrottleState) (env : StreamEnv) (m : Nat)
    (h1 : pyTruthy (strat1 env) = false) (h2 : pyTruthy (strat2 env) = false)
    (hst : st = some m) (he : env.statErr = false) (hage : 86400 < env.now - m) :
    (handle_stream_url vid st env).updateInvoked = true ∧
    (env.updateOk = true →
      (handle_stream_url vid st env).state = (if env.touchFails then st else some env.now) ∧
      (handle_stream_url vid st env).extractionCalls = 2) ∧
    (env.updateOk = false →
      (handle_stream_url vid st env).state = st ∧
      (handle_stream_url vid st env).extractionCalls = 1) := by
  have hg : should_update_ytdlp env.statErr st env.now = true := by
    rw [hst, he]
    simp [should_update_ytdlp, hage]
  refine ⟨?_, ?_, ?_⟩
  · rw [handle_updateInvoked_eq vid st env h1 h2, hg]
  · intro ho
    rw [handle_stream_url_eq]
    simp only [h1, h2, hg, ho, Bool.false_eq_true, if_false, eq_self_iff_true, if_true]
    cases hb3 : pyTruthy (strat3 st env) with
    | true =>
      simp only [hb3, if_true]
      exact ⟨by simp [mark_ytdlp_updated], trivial⟩
    | false =>
      simp only [hb3, Bool.false_eq_true, if_false]
      have hsp := finalFallback_spec vid (mark_ytdlp_updated env.touchFails env.now st) env
        true 2
      exact ⟨by rw [hsp.1]; simp [mark_ytdlp_updated], hsp.2.2.1⟩
  · intro ho
    rw [handle_stream_url_eq]
    simp only [h1, h2, hg, ho, Bool.false_eq_true, if_false, eq_self_iff_true, if_true]
    have hsp := finalFallback_spec vid st env true 1
    exact ⟨hsp.1, hsp.2.2.1⟩

/-- C6 amended witness: with a successful update and a successful retry,
the handler persists the new timestamp and calls extraction twice. -/
theorem update_retry_amended_witness :
    (handle_stream_url "v" (some 0) envUpd).updateInvoked = true ∧
    (handle_stream_url "v" (some 0) envUpd).state = some 90000 ∧
    (handle_stream_url "v" (some 0) envUpd).extractionCalls = 2 := by
  have h := update_retry_amended "v" (some 0) envUpd 0 (by decide) (by decide) rfl rfl
    (by decide)
  exact ⟨h.1, by simpa using (h.2.1 rfl).1, (h.2.1 rfl).2⟩

theorem runModule_len_ge_one (avail : Bool) (imsg : String) (argv : List String)
    (st : ThrottleState) (senv : SearchEnv) (venv : StreamEnv) :
    1 ≤ (runModule avail imsg argv st senv venv).outputs.length := by
  unfold runModule
  by_cases ha : avail = true
  · simp only [ha, if_true]
    cases argv with
    | nil => simp [main_dispatch]
    | cons prog tail =>
      cases tail with
      | nil => simp [main_dispatch]
      | cons command tail2 =>
        cases tail2 with
        | nil => simp [main_dispatch]
        | cons arg2 rest2 =>
          by_cases hcmd : command = "search"
          · subst hcmd
            obtain ⟨o, ho, _⟩ := handle_search_shape
              ((String.intercalate " " (arg2 :: rest2)).trim) senv
            simp [main_dispatch, ho]
          · by_cases hcmd2 : command = "stream_url"
            · subst hcmd2
              have houts : (main_dispatch (prog :: "stream_url" :: arg2 :: rest2)
                    st senv venv).outputs = (handle_stream_url arg2 st venv).outputs := by
                simp [main_dispatch]
              rcases handle_stream_outputs_shape arg2 st venv with hone | ⟨htwo, _⟩
              · rw [houts, hone]
              · rw [houts, htwo]
                omega
            · simp [main_dispatch, hcmd, hcmd2]
  · simp [ha]

/-- C8: every invocation terminates having printed at least one JSON
object, since each handler converts its failures into output objects
instead of letting them escape; and a missing ytmusicapi dependency
short-circuits with a single import-error object before any work (state
untouched, no update subprocess). -/
theorem failures_converted_to_json (avail : Bool) (imsg : String) (argv : List String)
    (st : ThrottleState) (senv : SearchEnv) (venv : StreamEnv) :
    1 ≤ (runModule avail imsg argv st senv venv).outputs.length ∧
    (avail = false →
      (runModule avail imsg argv st senv venv).outputs =
        [Output.error ("ytmusicapi not available: " ++ imsg)] ∧
      (runModule avail imsg argv st senv venv).state = st ∧
      (runModule avail imsg argv st senv venv).updateInvoked = false) := by
  refine ⟨runModule_len_ge_one avail imsg argv st senv venv, ?_⟩
  intro hav
  subst hav
  exact ⟨rfl, rfl, rfl⟩

/-- C8 witness: a missing dependency at import time yields exactly the
module error, an unchanged throttle state, and no update subprocess. -/
theorem failures_converted_to_json_witness :
    (runModule false "boom" ["helper", "search", "q"] none senv0 envAllFail).outputs =
      [Output.error ("ytmusicapi not available: " ++ "boom")] ∧
    (runModule false "boom" ["helper", "search", "q"] none senv0 envAllFail).state = none ∧
    (runModule false "boom" ["helper", "search", "q"] none senv0 envAllFail).updateInvoked
      = false :=
  (failures_converted_to_json false "boom" ["helper", "search", "q"] none senv0
    envAllFail).2 rfl

/-- C10: the timestamp-persisting call happens only when the update
subprocess reports success: with a failed update the throttle state is
unchanged (and any state change implies a successful, invoked update), so
a subsequent invocation with failing strategies and error-free checks
triggers the update subprocess again immediately. -/
theorem throttle_persist_only_on_success :
    (∀ vid st env, env.updateOk = false → (handle_stream_url vid st env).state = st) ∧
    (∀ vid st env, (handle_stream_url vid st env).state ≠ st →
      env.updateOk = true ∧ (handle_stream_url vid st env).updateInvoked = true) ∧
    (∀ vid vid2 st env env2, env.updateOk = false →
      (handle_stream_url vid st env).updateInvoked = true →
      env.statErr = false → env2.statErr = false → env.now ≤ env2.now →
      pyTruthy (strat1 env2) = false → pyTruthy (strat2 env2) = false →
      (handle_stream_url vid2 (handle_stream_url vid st env).state env2).updateInvoked
        = true) := by
  refine ⟨?_, ?_, ?_⟩
  · intro vid st env ho
    exact handle_state_noUpdateOk ho
  · intro vid st env hne
    cases ho : env.updateOk with
    | false => exact absurd (handle_state_noUpdateOk ho) hne
    | true =>
      refine ⟨rfl, ?_⟩
      cases hinv : (handle_stream_url vid st env).updateInvoked with
      | true => rfl
      | false => exact absurd (handle_state_noInvoke hinv) hne
  · intro vid vid2 st env env2 ho hinv he he2 hle h1 h2
    obtain ⟨_, _, hg⟩ := handle_updateInvoked_true hinv
    rw [handle_state_noUpdateOk ho, handle_updateInvoked_eq vid2 st env2 h1 h2]
    rw [he] at hg
    rw [he2]
    cases st with
    | none => simp [should_update_ytdlp]
    | some m =>
      simp [should_update_ytdlp] at hg ⊢
      omega

/-- C10 witness: a failed update leaves the state unchanged and, one
invocation later under the same conditions, the update subprocess runs
again. -/
theorem throttle_persist_only_on_success_witness :
    (handle_stream_url "v2" (handle_stream_url "v" (some 0) envC6).state envC6).updateInvoked
      = true :=
  throttle_persist_only_on_success.2.2 "v" "v2" (some 0) envC6 envC6 rfl (by decide) rfl rfl
    (le_refl _) (by decide) (by decide)
